import Mathlib

/-!
Verification of the file-based MCP bridge (`mcp_bridge.py`) and its consumer
(`webots_youbot_mcp_server.py`).

The Python code is shallowly embedded: pure computations become Lean
functions, stateful methods become explicit state-passing functions, and
external side effects (file writes, Webots supervisor calls, logging) are
reified as explicit effect values returned in order of occurrence.
Python floats are modelled as rationals, Python `None`-able values as
`Option`, and Python dicts as insertion-ordered association lists.
-/

namespace MCPBridge

/-! ## Command channel (`MCPBridge.process_commands` and its handlers)

A command document is a JSON object; the bridge accesses the keys
`action`, `command`, `filename` and `timestamp` via `cmd.get(...)`, each of
which may be absent (`none`). -/

/-- A command document as read from `commands.json`: the four keys the
bridge ever accesses, each optional (`cmd.get` returns `None` when absent). -/
structure CommandDoc where
  action : Option String := none
  command : Option String := none
  filename : Option String := none
  timestamp : Option String := none
deriving DecidableEq, Repr

/-- The observable content of the command file: missing, present but not
valid JSON, or a parsed command document. -/
inductive FileContent where
  | absent
  | malformed
  | parsed (cmd : CommandDoc)
deriving DecidableEq, Repr

/-- Webots simulation modes used by `_handle_simulation_control`. -/
inductive SimMode where
  | pauseMode
  | realTime
deriving DecidableEq, Repr

/-- External side effects the bridge can perform while processing a command,
in order of occurrence.  `writeCommandFile` is the effect a clear-before-execute
protocol would need; it is included so that its absence from every trace is a
statable fact about the code. -/
inductive Effect where
  | logMsg (level msg : String)
  | exportImage (path : String) (quality : Nat)
  | simulationSetMode (m : SimMode)
  | simulationReset
  | stepSim
  | writeCommandFile (content : FileContent)
deriving DecidableEq, Repr

/-- Effects that mutate the simulation environment (`exportImage`,
`simulationSetMode`, `simulationReset`, `step`). -/
def isEnvMutation : Effect → Bool
  | .exportImage _ _ => true
  | .simulationSetMode _ => true
  | .simulationReset => true
  | .stepSim => true
  | _ => false

/-- Effects that write the command file. -/
def isCommandFileWrite : Effect → Bool
  | .writeCommandFile _ => true
  | _ => false

/-- Embedding of `MCPBridge._handle_screenshot` (mcp_bridge.py lines 217-231): without
supervisor capability it logs a warning and returns; otherwise it calls
`robot.exportImage` on the requested (or timestamp-derived default) filename
and logs success.  `now` stands for the timestamp string used in the default
filename; the success path of the surrounding try/except is modelled. -/
def handle_screenshot (sup : Bool) (now : String) (cmd : CommandDoc) : List Effect :=
  if !sup then
    [.logMsg "WARN" "Cannot take screenshot: not running as supervisor"]
  else
    let filename := cmd.filename.getD ("screenshot_" ++ now)
    let filepath := "screenshots/" ++ filename ++ ".png"
    [.exportImage filepath 100, .logMsg "INFO" ("Screenshot saved: " ++ filepath)]

/-- Embedding of `MCPBridge._handle_simulation_control` (mcp_bridge.py lines 233-255):
without supervisor capability it logs a warning and returns; otherwise it
dispatches on the `command` key, doing nothing for unknown commands. -/
def handle_simulation_control (sup : Bool) (cmd : CommandDoc) : List Effect :=
  if !sup then
    [.logMsg "WARN" "Cannot control simulation: not running as supervisor"]
  else
    match cmd.command with
    | some "pause" => [.simulationSetMode .pauseMode, .logMsg "INFO" "Simulation paused"]
    | some "resume" => [.simulationSetMode .realTime, .logMsg "INFO" "Simulation resumed"]
    | some "reset" => [.simulationReset, .logMsg "INFO" "Simulation reset"]
    | some "step" => [.stepSim, .logMsg "INFO" "Single step executed"]
    | _ => []

/-- The dispatch section of `process_commands` (mcp_bridge.py lines 208-213):
`screenshot` and `simulation_control` have handlers, any other action is a
no-op. -/
def dispatch_action (sup : Bool) (now : String) (cmd : CommandDoc) : List Effect :=
  if cmd.action = some "screenshot" then handle_screenshot sup now cmd
  else if cmd.action = some "simulation_control" then handle_simulation_control sup cmd
  else []

/-- Result of one `process_commands` call: the returned value, the new
in-memory `_last_command_timestamp`, the command-file content after the call,
and the ordered trace of external effects performed. -/
structure ProcessResult where
  ret : Option CommandDoc
  newLast : Option String
  newFile : FileContent
  effects : List Effect
deriving DecidableEq, Repr

/-- Embedding of `MCPBridge.process_commands` (mcp_bridge.py lines 186-215).  Reads the
command file; an absent or unparsable file yields `None` (the except clause
swallows the parse error).  A document whose `timestamp` equals the
last-claimed timestamp yields `None`.  Otherwise the timestamp is recorded,
the action dispatched, and the document returned.  The method contains no
write to the command file, so `newFile` is always the input content. -/
def process_commands (sup : Bool) (now : String) (file : FileContent)
    (last : Option String) : ProcessResult :=
  match file with
  | .absent => ⟨none, last, file, []⟩
  | .malformed => ⟨none, last, file, []⟩
  | .parsed cmd =>
    if cmd.timestamp = last then ⟨none, last, file, []⟩
    else ⟨some cmd, cmd.timestamp, file, dispatch_action sup now cmd⟩

/-- Embedding of `_write_command` (webots_youbot_mcp_server.py lines 98-106): stamps the
command with the sender's current time and overwrites the command file. -/
def write_command (cmd : CommandDoc) (now : String) : FileContent :=
  .parsed { cmd with timestamp := some now }

/-- Modelled from the spec: the cleared sentinel command document of spec
section 6 (`action = "none"`, `command = "cleared"`, `timestamp = "0"`).
No code under src/ ever writes this document; it is defined here only to
compare the code's behaviour against the spec's clear-before-execute
protocol. -/
def cleared_sentinel : CommandDoc :=
  { action := some "none", command := some "cleared", timestamp := some "0" }

/-! ## Color classification (`MCPBridge.collect_recognized_objects`) -/

/-- The color-classification block of `collect_recognized_objects`
(mcp_bridge.py lines 423-431): dominant-channel thresholding of the RGB
channels of a recognized object.  Python floats are modelled as rationals. -/
def classify_color (r g b : ℚ) : String :=
  if r > 1/2 ∧ g < 1/2 then "red"
  else if g > 1/2 ∧ r < 1/2 then "green"
  else if b > 1/2 then "blue"
  else "unknown"

/-! ## Construction (`MCPBridge.__init__`) -/

/-- A filesystem side effect of bridge construction. -/
inductive InitEffect where
  | mkdirParents (path : String)
deriving DecidableEq, Repr

/-- The filesystem effects of `MCPBridge.__init__` (mcp_bridge.py lines
61-63): the loop `for d in [data_dir, camera_dir, screenshots_dir, logs_dir,
grid_dir]: d.mkdir(parents=True, exist_ok=True)`, performed eagerly at
construction.  `dataDir` is the resolved data directory path. -/
def init_effects (dataDir : String) : List InitEffect :=
  [dataDir, dataDir ++ "/camera", dataDir ++ "/screenshots",
   dataDir ++ "/logs", dataDir ++ "/grid"].map .mkdirParents

/-! ## Grid renderer (`MCPBridge.generate_grid_ascii`) -/

/-- Cell states of the external `OccupancyGrid`, as distinguished by the
renderer's comparisons against `grid.OBSTACLE`, `grid.FREE`, `grid.BOX`
and `grid.CUBE`; `other` covers any remaining value. -/
inductive Cell where
  | obstacle
  | free
  | box
  | cube
  | other
deriving DecidableEq, Repr

/-- The symbol table of `generate_grid_ascii` (mcp_bridge.py lines 341-350). -/
def cellChar : Cell → Char
  | .obstacle => '#'
  | .free => '.'
  | .box => 'B'
  | .cube => 'C'
  | .other => '?'

/-- The external `OccupancyGrid` as used by the renderer: dimensions, a cell
accessor, and the grid's own world-to-cell transform (`None` models a falsy
`robot_cell`). -/
structure OccupancyGrid where
  width : Nat
  height : Nat
  get : Nat → Nat → Cell
  world_to_cell : ℚ → ℚ → Option (Nat × Nat)

/-- Python `range(0, w, scale)` for `scale ≥ 1`: the sampled column indices. -/
def ascendingRange (w scale : Nat) : List Nat :=
  List.range' 0 ((w + scale - 1) / scale) scale

/-- Python `range(h - 1, -1, -scale)` for `scale ≥ 1`: the sampled row
indices, from the top row `h - 1` down to 0. -/
def descendingRange (h scale : Nat) : List Nat :=
  if h = 0 then [] else (List.range' 0 ((h - 1) / scale + 1) scale).map (fun k => h - 1 - k)

/-- The condition `robot_cell and gx == robot_cell[0] and gy == robot_cell[1]`
(mcp_bridge.py line 337); a cell tuple is always truthy in Python, so only
`None` is falsy. -/
def isRobotCell (robotCell : Option (Nat × Nat)) (gx gy : Nat) : Bool :=
  match robotCell with
  | some rc => gx == rc.1 && gy == rc.2
  | none => false

/-- One output row of the renderer: the characters for row `gy`, the robot's
own cell overriding the terrain character. -/
def gridRow (g : OccupancyGrid) (robotCell : Option (Nat × Nat)) (gy scale : Nat) : String :=
  ((ascendingRange g.width scale).map (fun gx =>
    if isRobotCell robotCell gx gy then 'R' else cellChar (g.get gx gy))).asString

/-- The rows of `generate_grid_ascii`, ordered top (maximum Y) to bottom
(Y = 0). -/
def gridLines (g : OccupancyGrid) (robotPos : ℚ × ℚ) (scale : Nat) : List String :=
  let robotCell := g.world_to_cell robotPos.1 robotPos.2
  (descendingRange g.height scale).map (fun gy => gridRow g robotCell gy scale)

/-- Embedding of `MCPBridge.generate_grid_ascii` (mcp_bridge.py lines 312-353): the
newline-joined ASCII projection of the grid. -/
def generate_grid_ascii (g : OccupancyGrid) (robotPos : ℚ × ℚ) (scale : Nat) : String :=
  String.intercalate "\n" (gridLines g robotPos scale)

/-- The 3×3 test grid of the claim: all FREE except one OBSTACLE at cell
(1,1), with the robot's world position mapping to cell (0,0). -/
def testGrid : OccupancyGrid where
  width := 3
  height := 3
  get := fun x y => if x = 1 ∧ y = 1 then .obstacle else .free
  world_to_cell := fun _ _ => some (0, 0)

/-! ## Frame ring (`MCPBridge.save_camera_frame`, `_cleanup_old_frames`)

Frame files are named `frame_<seq zero-padded to 6>.png` (PIL path) or
`frame_<seq zero-padded to 6>.raw` (fallback path).  Within one extension the
zero-padded names sort lexicographically exactly as the sequence numbers sort
numerically (for sequence numbers below 10^6, which covers every state
reachable in the claims), so directory entries are modelled by their sequence
number plus extension and Python's `sorted` on the names by a sort on the
sequence numbers. -/

/-- Extension of a saved frame file. -/
inductive FrameExt where
  | png
  | raw
deriving DecidableEq, Repr

/-- A file in the camera directory: its sequence number and extension. -/
structure FrameFile where
  seq : Nat
  ext : FrameExt
deriving DecidableEq, Repr

/-- The actual on-disk name of a frame file (mcp_bridge.py lines 283 and
294): `frame_` followed by the zero-padded sequence number and extension. -/
def frame_filename (n : Nat) : FrameExt → String
  | .png => "frame_" ++ zeroPad6 n ++ ".png"
  | .raw => "frame_" ++ zeroPad6 n ++ ".raw"
where
  /-- Python `f"{n:06d}"`. -/
  zeroPad6 (n : Nat) : String :=
    let s := toString n
    String.mk (List.replicate (6 - s.length) '0' ++ s.data)

/-- Camera-directory state: the frame counter and the directory contents in
creation order. -/
structure CameraState where
  frameCounter : Nat
  dir : List FrameFile
deriving DecidableEq, Repr

/-- Stable insertion into a sorted list; `sortNat` built on it models
Python's `sorted` on the (distinct) frame sequence numbers. -/
def insertSorted (a : Nat) : List Nat → List Nat
  | [] => [a]
  | b :: t => if a ≤ b then a :: b :: t else b :: insertSorted a t

/-- A comparison sort on sequence numbers, modelling Python `sorted(...)`. -/
def sortNat (l : List Nat) : List Nat :=
  l.foldr insertSorted []

/-- Embedding of `camera_dir.glob("frame_*.png")`: the sequence numbers of the PNG frame
files (raw files do not match the pattern). -/
def globPngSeqs (dir : List FrameFile) : List Nat :=
  (dir.filter (fun f => f.ext == FrameExt.png)).map (fun f => f.seq)

/-- Embedding of `MCPBridge._cleanup_old_frames` (mcp_bridge.py lines 302-310): list the
PNG frames sorted by name and, when more than `maxFrames` exist, delete the
slice `frames[:-max_frames]`.  For `max_frames ≥ 1` that slice is the oldest
`len - max_frames` entries; for `max_frames = 0` Python's `frames[:-0]` is
`frames[:0] = []`, so the sweep deletes nothing at all. -/
def cleanup_old_frames (maxFrames : Nat) (dir : List FrameFile) : List FrameFile :=
  let frames := sortNat (globPngSeqs dir)
  if maxFrames < frames.length then
    let toDelete := frames.take (if maxFrames = 0 then 0 else frames.length - maxFrames)
    dir.filter (fun f => !(f.ext == FrameExt.png && toDelete.contains f.seq))
  else dir

/-- The PIL path of `MCPBridge.save_camera_frame` (mcp_bridge.py lines
275-289): increment the counter, write `frame_<counter>.png`, then run the
cleanup sweep. -/
def save_camera_frame_png (maxFrames : Nat) (st : CameraState) : CameraState :=
  let c := st.frameCounter + 1
  ⟨c, cleanup_old_frames maxFrames (st.dir ++ [⟨c, .png⟩])⟩

/-- The PIL-unavailable fallback path of `MCPBridge.save_camera_frame`
(mcp_bridge.py lines 291-297): increment the counter and write
`frame_<counter>.raw`; no cleanup sweep is invoked. -/
def save_camera_frame_raw (st : CameraState) : CameraState :=
  ⟨st.frameCounter + 1, st.dir ++ [⟨st.frameCounter + 1, .raw⟩]⟩

/-- State after `k` consecutive pushes on the PNG path, starting from a fresh bridge
(counter 0, empty camera directory). -/
def push_png_frames (maxFrames : Nat) : Nat → CameraState
  | 0 => ⟨0, []⟩
  | k + 1 => save_camera_frame_png maxFrames (push_png_frames maxFrames k)

/-- State after `k` consecutive pushes on the raw fallback path, starting from a fresh
bridge. -/
def push_raw_frames : Nat → CameraState
  | 0 => ⟨0, []⟩
  | k + 1 => save_camera_frame_raw (push_raw_frames k)

/-! ## Status publisher (`MCPBridge.update_status`)

The status document is a JSON object.  Python dicts are modelled as
insertion-ordered association lists, Python floats as rationals. -/

/-- A JSON value as produced by `update_status`. -/
inductive JVal where
  | s (v : String)
  | i (v : Int)
  | q (v : ℚ)
  | null
  | list (v : List JVal)
  | obj (fields : List (String × JVal))

/-- Python truthiness for an optional list/dict argument: `None` and the
empty collection are falsy. -/
def truthyList (o : Option (List α)) : Option (List α) :=
  match o with
  | some l => if l.isEmpty then none else some l
  | none => none

/-- Python truthiness for an optional string argument: `None` and the empty
string are falsy. -/
def truthyStr (o : Option String) : Option String :=
  match o with
  | some v => if v = "" then none else some v
  | none => none

/-- Python `dict.update`: values of existing keys are replaced in place,
new keys are appended in order (assuming `e` itself has no duplicate keys,
as a dict cannot). -/
def dict_update (d e : List (String × JVal)) : List (String × JVal) :=
  d.map (fun kv =>
    match e.lookup kv.1 with
    | some v => (kv.1, v)
    | none => kv) ++
    e.filter (fun kv => (d.lookup kv.1).isNone)

/-- The arguments of `update_status` (mcp_bridge.py lines 90-107), with the
source's defaults. -/
structure StatusArgs where
  pose : List ℚ
  mode : String
  collected : Int
  maxCubes : Int := 15
  currentTarget : Option String := none
  delivered : Option (List (String × JVal)) := none
  lidarData : Option (List (String × JVal)) := none
  distanceSensors : Option (List (String × JVal)) := none
  recognizedObjects : Option (List JVal) := none
  waypoints : Option (List (ℚ × ℚ)) := none
  currentWaypointIndex : Int := 0
  activeGoal : Option (ℚ × ℚ) := none
  armState : Option (List (String × JVal)) := none
  gripperState : Option (List (String × JVal)) := none
  gridAscii : Option String := none
  extra : Option (List (String × JVal)) := none

/-- The default delivery counters `{"red": 0, "green": 0, "blue": 0}`
(mcp_bridge.py line 143). -/
def default_delivered : List (String × JVal) :=
  [("red", .i 0), ("green", .i 0), ("blue", .i 0)]

/-- The status document built by `update_status` (mcp_bridge.py lines
136-177) once past the throttle: the seven base fields in source order,
then each optional section appended when its argument is truthy, then
`status.update(extra)`.  `now` is `datetime.now().isoformat()` evaluated at
the write. -/
def build_status (now : String) (a : StatusArgs) : List (String × JVal) :=
  let pose : JVal :=
    if a.pose = [] then .list [.i 0, .i 0, .i 0] else .list (a.pose.map .q)
  let delivered : List (String × JVal) :=
    match truthyList a.delivered with
    | some d => d
    | none => default_delivered
  let base : List (String × JVal) :=
    [("timestamp", .s now), ("pose", pose), ("mode", .s a.mode),
     ("collected", .i a.collected), ("max_cubes", .i a.maxCubes),
     ("current_target", match a.currentTarget with | some t => .s t | none => .null),
     ("delivered", .obj delivered)]
  let base := base ++
    (match truthyList a.lidarData with
     | some l => [("lidar", .obj l)]
     | none => [])
  let base := base ++
    (match truthyList a.distanceSensors with
     | some l => [("distance_sensors", .obj l)]
     | none => [])
  let base := base ++
    (match truthyList a.recognizedObjects with
     | some l => [("recognized_objects", .list l)]
     | none => [])
  let base := base ++
    (match truthyList a.waypoints with
     | some ws =>
       [("waypoints", .list (ws.map (fun w => .list [.q w.1, .q w.2]))),
        ("current_waypoint_index", .i a.currentWaypointIndex)]
     | none => [])
  let base := base ++
    (match a.activeGoal with
     | some g => [("active_goal", .list [.q g.1, .q g.2])]
     | none => [])
  let base := base ++
    (match truthyList a.armState with
     | some l => [("arm", .obj l)]
     | none => [])
  let base := base ++
    (match truthyList a.gripperState with
     | some l => [("gripper", .obj l)]
     | none => [])
  let base := base ++
    (match truthyStr a.gridAscii with
     | some v => [("grid_ascii", .s v)]
     | none => [])
  match truthyList a.extra with
  | some e => dict_update base e
  | none => base

/-- The throttle interval `self._status_update_interval = 5` (mcp_bridge.py
line 72). -/
def status_update_interval : Nat := 5

/-- Result of one `update_status` call: the new step counter, the document
written to the status file (if any), and the content written to
`grid/grid.txt` (if any). -/
structure UpdateResult where
  stepCounter : Nat
  statusWrite : Option (List (String × JVal))
  gridWrite : Option String

/-- Embedding of `MCPBridge.update_status` (mcp_bridge.py lines 90-184): increment the
step counter; skip everything unless the counter is a multiple of the
throttle interval; otherwise build and write the status document (also
mirroring a truthy `grid_ascii` to `grid/grid.txt`). -/
def update_status (a : StatusArgs) (now : String) (stepCounter : Nat) : UpdateResult :=
  let c := stepCounter + 1
  if c % status_update_interval ≠ 0 then ⟨c, none, none⟩
  else ⟨c, some (build_status now a), truthyStr a.gridAscii⟩

/-- A sequence of `update_status` calls with per-call clock values,
returning the final step counter and all status-file writes in order. -/
def run_updates (a : StatusArgs) (ts : List String) (c : Nat) :
    Nat × List (List (String × JVal)) :=
  match ts with
  | [] => (c, [])
  | t :: rest =>
    let r := update_status a t c
    let rec' := run_updates a rest r.stepCounter
    (rec'.1, (match r.statusWrite with | some d => [d] | none => []) ++ rec'.2)

end MCPBridge

namespace MCPBridge

/-! ## Helper lemmas -/

/-- Neither handler ever writes the command file. -/
lemma dispatch_action_no_command_write (sup : Bool) (now : String) (cmd : CommandDoc) :
    (dispatch_action sup now cmd).filter isCommandFileWrite = [] := by
  unfold dispatch_action handle_screenshot handle_simulation_control
  split
  · split
    · simp [isCommandFileWrite]
    · simp [isCommandFileWrite]
  · split
    · split
      · simp [isCommandFileWrite]
      · split <;> simp [isCommandFileWrite]
    · simp

/-- Branch-by-branch characterization: the classification is `"red"` exactly
when the red-dominance condition holds. -/
lemma classify_color_eq_red_iff (r g b : ℚ) :
    classify_color r g b = "red" ↔ r > 1/2 ∧ g < 1/2 := by
  unfold classify_color
  split_ifs with h1 h2 h3
  · exact iff_of_true rfl h1
  · exact iff_of_false (by decide) h1
  · exact iff_of_false (by decide) h1
  · exact iff_of_false (by decide) h1

/-- The classification is `"green"` exactly when the green-dominance
condition holds (which is incompatible with red dominance). -/
lemma classify_color_eq_green_iff (r g b : ℚ) :
    classify_color r g b = "green" ↔ g > 1/2 ∧ r < 1/2 := by
  unfold classify_color
  split_ifs with h1 h2 h3
  · exact iff_of_false (by decide) (fun h => absurd h1.1 (asymm h.2))
  · exact iff_of_true rfl h2
  · exact iff_of_false (by decide) h2
  · exact iff_of_false (by decide) h2

/-- The classification is `"blue"` exactly when neither red nor green
dominance holds and the blue channel exceeds the threshold. -/
lemma classify_color_eq_blue_iff (r g b : ℚ) :
    classify_color r g b = "blue" ↔
      ¬(r > 1/2 ∧ g < 1/2) ∧ ¬(g > 1/2 ∧ r < 1/2) ∧ b > 1/2 := by
  unfold classify_color
  split_ifs with h1 h2 h3
  · exact iff_of_false (by decide) (fun h => h.1 h1)
  · exact iff_of_false (by decide) (fun h => h.2.1 h2)
  · exact iff_of_true rfl ⟨h1, h2, h3⟩
  · exact iff_of_false (by decide) (fun h => h3 h.2.2)

/-- The classification is `"unknown"` exactly when no dominance condition
holds. -/
lemma classify_color_eq_unknown_iff (r g b : ℚ) :
    classify_color r g b = "unknown" ↔
      ¬(r > 1/2 ∧ g < 1/2) ∧ ¬(g > 1/2 ∧ r < 1/2) ∧ ¬(b > 1/2) := by
  unfold classify_color
  split_ifs with h1 h2 h3
  · exact iff_of_false (by decide) (fun h => h.1 h1)
  · exact iff_of_false (by decide) (fun h => h.2.1 h2)
  · exact iff_of_false (by decide) (fun h => h.2.2 h3)
  · exact iff_of_true rfl ⟨h1, h2, h3⟩

/-- Inserting an element below every element of a list puts it in front. -/
lemma insertSorted_of_forall_le (a : Nat) (l : List Nat) (h : ∀ b ∈ l, a ≤ b) :
    insertSorted a l = a :: l := by
  cases l with
  | nil => rfl
  | cons b t => simp [insertSorted, h b (List.mem_cons_self b t)]

/-- Sorting an already sorted list leaves it unchanged. -/
lemma sortNat_of_sorted : ∀ l : List Nat, l.Sorted (· ≤ ·) → sortNat l = l := by
  intro l h
  induction l with
  | nil => rfl
  | cons a t ih =>
    have h' := List.sorted_cons.mp h
    have hrec : sortNat (a :: t) = insertSorted a (sortNat t) := rfl
    rw [hrec, ih h'.2, insertSorted_of_forall_le a t h'.1]

/-- A step-1 `range'` is sorted. -/
lemma sorted_range'_le (s n : Nat) : (List.range' s n).Sorted (· ≤ ·) :=
  (List.pairwise_lt_range' s n).imp le_of_lt

/-- Globbing for PNG frames in an all-PNG directory returns every sequence
number. -/
lemma globPngSeqs_map_png (l : List Nat) :
    globPngSeqs (l.map (fun n => (⟨n, .png⟩ : FrameFile))) = l := by
  induction l with
  | nil => rfl
  | cons a t ih => simpa [globPngSeqs, List.filter_cons] using ih

/-- Globbing for PNG frames in an all-raw directory returns nothing: the raw
fallback files never match the sweep's glob pattern. -/
lemma globPngSeqs_map_raw (l : List Nat) :
    globPngSeqs (l.map (fun n => (⟨n, .raw⟩ : FrameFile))) = [] := by
  induction l with
  | nil => rfl
  | cons a t ih => simp [globPngSeqs, List.filter_cons, ih]

/-- Deleting a set of sequence numbers from an all-PNG directory is a filter
on the sequence numbers. -/
lemma filter_delete_map_png (l : List Nat) (p : Nat → Bool) :
    ((l.map (fun n => (⟨n, .png⟩ : FrameFile))).filter
        (fun f => !(f.ext == FrameExt.png && p f.seq))) =
      (l.filter (fun n => !(p n))).map (fun n => (⟨n, .png⟩ : FrameFile)) := by
  induction l with
  | nil => rfl
  | cons a t ih =>
    by_cases h : p a <;> simp [List.filter_cons, h, Bool.not_and] at ih ⊢ <;> exact ih

/-- Filtering the head's sequence number out of a step-1 range drops exactly
the head. -/
lemma filter_ne_head_range' (s n : Nat) :
    (List.range' s (n + 1)).filter (fun x => !([s].contains x)) =
      List.range' (s + 1) n := by
  rw [List.range'_succ, List.filter_cons]
  have h1 : (!([s].contains s)) = false := by simp
  rw [h1, if_neg Bool.false_ne_true]
  apply List.filter_eq_self.mpr
  intro x hx
  have hge := (List.mem_range'_1.mp hx).1
  have hne : x ≠ s := by omega
  simp [hne]

/-- Invariant of the PNG push path for a positive capacity: after `k` pushes
the counter is `k` and the directory holds exactly the newest
`min k maxFrames` PNG frames, in sequence order.  (For capacity 0 the sweep's
`frames[:-0]` slice is empty and nothing is ever deleted, so this shape does
not hold there.) -/
lemma push_png_frames_spec (maxFrames : Nat) (hpos : 1 ≤ maxFrames) :
    ∀ k, (push_png_frames maxFrames k).frameCounter = k ∧
      (push_png_frames maxFrames k).dir =
        (List.range' (k + 1 - min k maxFrames) (min k maxFrames)).map
          (fun n => (⟨n, .png⟩ : FrameFile)) := by
  intro k
  induction k with
  | zero => exact ⟨rfl, by simp [push_png_frames]⟩
  | succ k ih =>
    obtain ⟨hc, hd⟩ := ih
    have hmk : min k maxFrames ≤ k := Nat.min_le_left _ _
    have hmmax : min k maxFrames ≤ maxFrames := Nat.min_le_right _ _
    have harith : (k + 1 - min k maxFrames) + 1 * min k maxFrames = k + 1 := by omega
    have h1 : List.range' (k + 1 - min k maxFrames) (min k maxFrames + 1) =
        List.range' (k + 1 - min k maxFrames) (min k maxFrames) ++ [k + 1] := by
      rw [List.range'_concat, harith]
    have hcount : (push_png_frames maxFrames (k + 1)).frameCounter =
        (push_png_frames maxFrames k).frameCounter + 1 := rfl
    have hstep : (push_png_frames maxFrames (k + 1)).dir =
        cleanup_old_frames maxFrames ((push_png_frames maxFrames k).dir ++
          [(⟨(push_png_frames maxFrames k).frameCounter + 1, FrameExt.png⟩ : FrameFile)]) := rfl
    refine ⟨by rw [hcount, hc], ?_⟩
    rw [hstep, hc, hd]
    have hdir1 : (List.range' (k + 1 - min k maxFrames) (min k maxFrames)).map
          (fun n => (⟨n, FrameExt.png⟩ : FrameFile)) ++
        [(⟨k + 1, FrameExt.png⟩ : FrameFile)] =
        (List.range' (k + 1 - min k maxFrames) (min k maxFrames + 1)).map
          (fun n => (⟨n, FrameExt.png⟩ : FrameFile)) := by
      rw [h1, List.map_append]
      rfl
    rw [hdir1]
    simp only [cleanup_old_frames]
    rw [globPngSeqs_map_png, sortNat_of_sorted _ (sorted_range'_le _ _), List.length_range']
    by_cases hcap : maxFrames < min k maxFrames + 1
    · rw [if_pos hcap]
      have htake : (List.range' (k + 1 - min k maxFrames) (min k maxFrames + 1)).take
          (if maxFrames = 0 then 0 else min k maxFrames + 1 - maxFrames) =
          [k + 1 - min k maxFrames] := by
        rw [if_neg (by omega : ¬maxFrames = 0), List.range'_succ]
        have hone : min k maxFrames + 1 - maxFrames = 1 := by omega
        rw [hone]
        rfl
      rw [htake, filter_delete_map_png, filter_ne_head_range']
      have e1 : min (k + 1) maxFrames = min k maxFrames := by omega
      rw [e1]
      have e2 : k + 1 + 1 - min k maxFrames = k + 1 - min k maxFrames + 1 := by omega
      rw [e2]
    · rw [if_neg hcap]
      have e1 : min (k + 1) maxFrames = min k maxFrames + 1 := by omega
      rw [e1]
      have e2 : k + 1 + 1 - (min k maxFrames + 1) = k + 1 - min k maxFrames := by omega
      rw [e2]

/-- Invariant of the raw fallback path: after `k` pushes the counter is `k`
and the directory holds all `k` raw frames. -/
lemma push_raw_frames_spec :
    ∀ k, (push_raw_frames k).frameCounter = k ∧
      (push_raw_frames k).dir =
        (List.range' 1 k).map (fun n => (⟨n, .raw⟩ : FrameFile)) := by
  intro k
  induction k with
  | zero => exact ⟨rfl, rfl⟩
  | succ k ih =>
    obtain ⟨hc, hd⟩ := ih
    have h1 : List.range' 1 (k + 1) = List.range' 1 k ++ [k + 1] := by
      rw [List.range'_concat]
      have : 1 + 1 * k = k + 1 := by omega
      rw [this]
    refine ⟨by simp [push_raw_frames, save_camera_frame_raw, hc], ?_⟩
    show (save_camera_frame_raw (push_raw_frames k)).dir = _
    unfold save_camera_frame_raw
    rw [hd, hc, h1, List.map_append]
    rfl

/-! ## Claim theorems -/

/-- Claim C1, counterexample: processing a fresh `simulation_control` command
dispatches it (the call returns the command), yet the command file afterwards
still holds the original command document, not the cleared sentinel the claim
requires. -/
theorem c1_counterexample :
    (process_commands true "now"
        (.parsed { action := some "simulation_control", command := some "pause",
                   timestamp := some "t1" }) none).ret =
      some { action := some "simulation_control", command := some "pause",
             timestamp := some "t1" } ∧
    (process_commands true "now"
        (.parsed { action := some "simulation_control", command := some "pause",
                   timestamp := some "t1" }) none).newFile ≠
      .parsed cleared_sentinel := by
  decide

/-- Claim C1, amended: `process_commands` never writes the command file at
all — its effect trace contains no command-file write and the file content
after the call (hence during and after handler dispatch, until a new send)
is exactly the content that was read, never a cleared sentinel.  Dedup rests
solely on the volatile in-memory timestamp. -/
theorem c1_command_file_never_cleared (sup : Bool) (now : String)
    (file : FileContent) (last : Option String) :
    (process_commands sup now file last).newFile = file ∧
    (process_commands sup now file last).effects.filter isCommandFileWrite = [] := by
  cases file with
  | absent => exact ⟨rfl, rfl⟩
  | malformed => exact ⟨rfl, rfl⟩
  | parsed cmd =>
    by_cases h : cmd.timestamp = last
    · simp [process_commands, h]
    · simpa [process_commands, h] using dispatch_action_no_command_write sup now cmd

/-- Claim C2: writing one command and calling `process_commands` twice with
no intervening send dispatches it exactly once — the first call returns the
stamped command, records its timestamp as last-claimed, and performs the
dispatch effects; the second call returns `None` with no effects and leaves
the last-claimed timestamp unchanged. -/
theorem c2_second_receive_returns_nothing (cmd : CommandDoc) (now nowName : String)
    (sup : Bool) :
    (process_commands sup nowName (write_command cmd now) none).ret =
      some { cmd with timestamp := some now } ∧
    (process_commands sup nowName (write_command cmd now) none).newLast = some now ∧
    (process_commands sup nowName (write_command cmd now) none).effects =
      dispatch_action sup nowName { cmd with timestamp := some now } ∧
    (process_commands sup nowName (write_command cmd now)
        (process_commands sup nowName (write_command cmd now) none).newLast).ret = none ∧
    (process_commands sup nowName (write_command cmd now)
        (process_commands sup nowName (write_command cmd now) none).newLast).effects = [] ∧
    (process_commands sup nowName (write_command cmd now)
        (process_commands sup nowName (write_command cmd now) none).newLast).newLast =
      some now := by
  simp [write_command, process_commands]

/-- Claim C6: recognized-object color classification is by dominant-channel
thresholding — red iff R>0.5 and G<0.5, green iff G>0.5 and R<0.5, blue iff
neither and B>0.5, otherwise unknown — and in particular the four sample
channel triples classify as red, green, blue and unknown respectively. -/
theorem c6_color_classification (r g b : ℚ) :
    (classify_color r g b = "red" ↔ r > 1/2 ∧ g < 1/2) ∧
    (classify_color r g b = "green" ↔ g > 1/2 ∧ r < 1/2) ∧
    (classify_color r g b = "blue" ↔
      ¬(r > 1/2 ∧ g < 1/2) ∧ ¬(g > 1/2 ∧ r < 1/2) ∧ b > 1/2) ∧
    (classify_color r g b = "unknown" ↔
      ¬(r > 1/2 ∧ g < 1/2) ∧ ¬(g > 1/2 ∧ r < 1/2) ∧ ¬(b > 1/2)) ∧
    classify_color (9/10) (1/10) (1/10) = "red" ∧
    classify_color (1/10) (9/10) (1/10) = "green" ∧
    classify_color (1/10) (1/10) (9/10) = "blue" ∧
    classify_color (3/10) (3/10) (3/10) = "unknown" :=
  ⟨classify_color_eq_red_iff r g b,
   classify_color_eq_green_iff r g b,
   classify_color_eq_blue_iff r g b,
   classify_color_eq_unknown_iff r g b,
   (classify_color_eq_red_iff _ _ _).mpr (by norm_num),
   (classify_color_eq_green_iff _ _ _).mpr (by norm_num),
   (classify_color_eq_blue_iff _ _ _).mpr (by norm_num),
   (classify_color_eq_unknown_iff _ _ _).mpr (by norm_num)⟩

/-- Claim C8: an absent or unparsable command file makes `process_commands`
return `None` with no effects, leaving the last-claimed timestamp and the
file untouched — the condition is "no new command", not an error (the
embedding is total, mirroring the swallowed parse exception). -/
theorem c8_absent_or_malformed_returns_none (sup : Bool) (now : String)
    (last : Option String) :
    process_commands sup now .absent last = ⟨none, last, .absent, []⟩ ∧
    process_commands sup now .malformed last = ⟨none, last, .malformed, []⟩ :=
  ⟨rfl, rfl⟩

/-- Claim C9: without supervisory capability each privileged handler logs a
single warning, performs no environment mutation (no export, mode change,
reset or step appears in its effect trace), and — being total — does not
raise. -/
theorem c9_no_supervisor_no_mutation (now : String) (cmd : CommandDoc) :
    handle_screenshot false now cmd =
      [.logMsg "WARN" "Cannot take screenshot: not running as supervisor"] ∧
    handle_simulation_control false cmd =
      [.logMsg "WARN" "Cannot control simulation: not running as supervisor"] ∧
    (handle_screenshot false now cmd).filter isEnvMutation = [] ∧
    (handle_simulation_control false cmd).filter isEnvMutation = [] :=
  ⟨rfl, rfl, rfl, rfl⟩

/-- Claim C4, counterexample: constructing the bridge does perform filesystem
side effects — the effect list of `__init__` is nonempty for a concrete data
directory. -/
theorem c4_counterexample : init_effects "data" ≠ [] := by
  decide

/-- Claim C4, amended: construction eagerly creates the data directory and
its four subdirectories (`camera`, `screenshots`, `logs`, `grid`) via
`mkdir(parents=True, exist_ok=True)`; directory creation is not deferred to
the first status write. -/
theorem c4_init_creates_directories_eagerly (dataDir : String) :
    init_effects dataDir =
      [.mkdirParents dataDir, .mkdirParents (dataDir ++ "/camera"),
       .mkdirParents (dataDir ++ "/screenshots"), .mkdirParents (dataDir ++ "/logs"),
       .mkdirParents (dataDir ++ "/grid")] ∧
    init_effects dataDir ≠ [] := by
  refine ⟨rfl, ?_⟩
  simp [init_effects]

/-- Claim C5, counterexample: on the 3×3 test grid the first (top) output
row, the one corresponding to y = 2, does not carry the robot marker at
column 0 — it is entirely free terrain. -/
theorem c5_counterexample :
    ((gridLines testGrid ((0 : ℚ), (0 : ℚ)) 1).getD 0 "").data.getD 0 ' ' ≠ 'R' ∧
    (gridLines testGrid ((0 : ℚ), (0 : ℚ)) 1).getD 0 "" = "..." := by
  decide

/-- Claim C5, amended: rows are iterated from maximum Y down to 0 and the
robot's cell overrides the terrain character, so on the 3×3 test grid the
robot marker (cell (0,0)) lands on the bottom output row — row index 2,
the row corresponding to y = 0 — at column 0, while the top row (y = 2)
is free and the middle row shows the obstacle at (1,1). -/
theorem c5_robot_marker_on_bottom_row :
    generate_grid_ascii testGrid ((0 : ℚ), (0 : ℚ)) 1 = "...\n.#.\nR.." ∧
    gridLines testGrid ((0 : ℚ), (0 : ℚ)) 1 = ["...", ".#.", "R.."] ∧
    ((gridLines testGrid ((0 : ℚ), (0 : ℚ)) 1).getD 2 "").data.getD 0 ' ' = 'R' := by
  decide

/-- Claim C7, counterexample: with capacity `max_frames = 0` and `M = 2 > 0`
pushes on the PNG path, two frame files exist afterwards, not
`max_frames = 0` of them — Python's sweep slice `frames[:-0]` is empty, so
nothing is ever deleted at capacity 0 and the claim's "exactly max_frames
frame files" fails there. -/
theorem c7_counterexample :
    0 < 2 ∧ (push_png_frames 0 2).dir.length = 2 ∧
    (push_png_frames 0 2).dir.length ≠ 0 := by
  decide

/-- Claim C7, amended: for a positive capacity `max_frames ≥ 1` (and within
the zero-padded naming range, counter ≤ 999999, on which lexicographic name
order agrees with numeric sequence order), after `M > max_frames` pushes
from a fresh bridge exactly `max_frames` frame files exist — the newest
ones, with monotonically increasing sequence numbers, the counter having
advanced once per push.  At capacity 0 the sweep's `frames[:-0]` slice is
empty and all `M` files remain. -/
theorem c7_sweep_keeps_capacity_when_positive (maxFrames M : Nat)
    (hpos : 1 ≤ maxFrames) (h : maxFrames < M) (_hdom : M ≤ 999999) :
    (push_png_frames maxFrames M).dir.length = maxFrames ∧
    (push_png_frames maxFrames M).dir =
      (List.range' (M + 1 - maxFrames) maxFrames).map (fun n => (⟨n, .png⟩ : FrameFile)) ∧
    (push_png_frames maxFrames M).frameCounter = M := by
  obtain ⟨hc, hd⟩ := push_png_frames_spec maxFrames hpos M
  have hmin : min M maxFrames = maxFrames := by omega
  rw [hmin] at hd
  exact ⟨by rw [hd]; simp, hd, hc⟩

/-- Claim C7 witness: three pushes with capacity two leave exactly two frame
files. -/
theorem c7_sweep_keeps_capacity_when_positive_witness :
    1 ≤ 2 ∧ 2 < 3 ∧ 3 ≤ 999999 ∧ (push_png_frames 2 3).dir.length = 2 :=
  ⟨by decide, by decide, by decide,
   (c7_sweep_keeps_capacity_when_positive 2 3 (by decide) (by decide) (by decide)).1⟩

/-- Claim C10: on the PIL-unavailable fallback path every push writes a
`.raw` file and no sweep runs; the sweep's glob matches only `.png` files,
so even running it would delete nothing, and after `M > max_frames` pushes
the camera directory holds all `M` frame files, exceeding `max_frames`. -/
theorem c10_raw_fallback_exceeds_capacity (maxFrames M : Nat) (h : maxFrames < M) :
    (push_raw_frames M).dir.length = M ∧
    maxFrames < (push_raw_frames M).dir.length ∧
    globPngSeqs (push_raw_frames M).dir = [] ∧
    cleanup_old_frames maxFrames (push_raw_frames M).dir = (push_raw_frames M).dir := by
  obtain ⟨hc, hd⟩ := push_raw_frames_spec M
  have hglob : globPngSeqs (push_raw_frames M).dir = [] := by
    rw [hd]
    exact globPngSeqs_map_raw _
  have hlen : (push_raw_frames M).dir.length = M := by
    rw [hd]
    simp
  refine ⟨hlen, by omega, hglob, ?_⟩
  simp only [cleanup_old_frames]
  rw [hglob]
  simp [sortNat]

/-- Claim C10 witness: three raw pushes with capacity two leave three frame
files, exceeding the capacity. -/
theorem c10_raw_fallback_exceeds_capacity_witness :
    2 < 3 ∧ (push_raw_frames 3).dir.length = 3 :=
  ⟨by decide, (c10_raw_fallback_exceeds_capacity 2 3 (by decide)).1⟩

/-- Claim C3: with throttle interval 5 and a fresh step counter, the first
four `update_status` calls write nothing, the fifth performs exactly one
status-file write, whose document carries the write-time timestamp and
whose non-timestamp fields equal the supplied state (shown for each
lookup key, under the validity conditions that the corresponding argument
was truthily supplied and that `extra` does not override other keys). -/
theorem c3_fifth_call_writes_once (a : StatusArgs) (t1 t2 t3 t4 t5 : String) :
    (run_updates a [t1, t2, t3, t4] 0).2 = [] ∧
    (run_updates a [t1, t2, t3, t4, t5] 0).2 = [build_status t5 a] ∧
    (run_updates a [t1, t2, t3, t4, t5] 0).1 = 5 ∧
    (a.extra = none →
      (build_status t5 a).lookup "timestamp" = some (.s t5) ∧
      (build_status t5 a).lookup "mode" = some (.s a.mode) ∧
      (build_status t5 a).lookup "collected" = some (.i a.collected) ∧
      (build_status t5 a).lookup "max_cubes" = some (.i a.maxCubes) ∧
      (a.pose ≠ [] →
        (build_status t5 a).lookup "pose" = some (.list (a.pose.map .q))) ∧
      (∀ t, a.currentTarget = some t →
        (build_status t5 a).lookup "current_target" = some (.s t)) ∧
      (∀ d, a.delivered = some d → d ≠ [] →
        (build_status t5 a).lookup "delivered" = some (.obj d)) ∧
      (∀ l, a.lidarData = some l → l ≠ [] →
        (build_status t5 a).lookup "lidar" = some (.obj l))) := by
  refine ⟨?_, ?_, ?_, ?_⟩
  · simp [run_updates, update_status, status_update_interval]
  · simp [run_updates, update_status, status_update_interval]
  · simp [run_updates, update_status, status_update_interval]
  · intro hx
    refine ⟨?_, ?_, ?_, ?_, ?_, ?_, ?_, ?_⟩
    · simp [build_status, hx, truthyList, List.lookup]
    · simp [build_status, hx, truthyList, List.lookup]
    · simp [build_status, hx, truthyList, List.lookup]
    · simp [build_status, hx, truthyList, List.lookup]
    · intro hpose
      simp [build_status, hx, hpose, truthyList, List.lookup]
    · intro t ht
      simp [build_status, hx, ht, truthyList, List.lookup]
    · intro d hdel hdne
      rcases d with _ | ⟨p, rest⟩
      · exact absurd rfl hdne
      · simp [build_status, hx, hdel, truthyList, List.lookup]
    · intro l hlid hlne
      rcases l with _ | ⟨p, rest⟩
      · exact absurd rfl hlne
      · simp [build_status, hx, hlid, truthyList, List.lookup]

/-- Claim C3 witness: a concrete state map written on the fifth call, with
the mode field preserved. -/
theorem c3_fifth_call_writes_once_witness :
    (run_updates { pose := [(1 : ℚ)], mode := "search", collected := 2 }
        ["a", "b", "c", "d", "e"] 0).2 =
      [build_status "e" { pose := [(1 : ℚ)], mode := "search", collected := 2 }] ∧
    (build_status "e" { pose := [(1 : ℚ)], mode := "search", collected := 2 }).lookup
        "mode" = some (.s "search") ∧
    (build_status "e" { pose := [(1 : ℚ)], mode := "search", collected := 2 }).lookup
        "pose" = some (.list [.q 1]) := by
  have h := c3_fifth_call_writes_once
    { pose := [(1 : ℚ)], mode := "search", collected := 2 } "a" "b" "c" "d" "e"
  have h4 := h.2.2.2 rfl
  refine ⟨h.2.1, h4.2.1, ?_⟩
  have hp := h4.2.2.2.2.1 (by simp)
  simpa using hp

end MCPBridge
